import Mathlib

/-!
Verification development for the Wellness Council backend
(`backend/council.py` and `backend/config.py`).

Python strings are modelled as `List Char` (one entry per code point).
Python dicts that are only built once and read by key are modelled as
association lists with `List.lookup`.  The external `query_model`
collaborator (an async HTTP call) is modelled as an oracle function
`Str → List Msg → Option Str`: `none` is a failed/timed-out call,
`some content` a reply whose `content` field holds `content`.  Every
council function additionally returns the list of collaborator calls it
issued, in issue order, so that claims about which stages run can be
stated.
-/

set_option maxRecDepth 10000

abbrev Str := List Char

namespace Council

/-! ### Character classes used by the regular expressions in
`parse_ranking_from_text` (`re.findall(r'\d+\.\s*Response [A-Z]', …)` and
`re.findall(r'Response [A-Z]', …)`), restricted to their ASCII meaning. -/

/-- ASCII decimal digit, the `\d` class of the source regex. -/
def isDigitChar (c : Char) : Bool := '0' ≤ c && c ≤ '9'

/-- ASCII whitespace, the `\s` class of the source regex. -/
def isSpaceChar (c : Char) : Bool :=
  c = ' ' || c = '\t' || c = '\n' || c = '\r' || c = '\x0b' || c = '\x0c'

/-- Uppercase ASCII letter, the `[A-Z]` class of the source regex. -/
def isUpperLetter (c : Char) : Bool := 'A' ≤ c && c ≤ 'Z'

/-- Match the pattern `Response [A-Z]` at the very start of `l`.
On success returns the matched text (always the ten characters
`"Response "` plus one uppercase letter) and the remainder of `l`
after the match. -/
def matchBareAt (l : Str) : Option (Str × Str) :=
  if "Response ".toList.isPrefixOf l then
    match l.drop 9 with
    | c :: rest => if isUpperLetter c then some ("Response ".toList ++ [c], rest) else none
    | [] => none
  else none

/-- Match the pattern `\d+\.\s*Response [A-Z]` at the very start of `l`.
On success returns only the label portion `Response X` (the source maps
each full match `m` through `re.search(r'Response [A-Z]', m).group()`,
which inside such a match is exactly its trailing ten characters) and
the remainder of `l` after the full match. -/
def matchNumberedAt (l : Str) : Option (Str × Str) :=
  let ds := l.takeWhile isDigitChar
  if ds.isEmpty then none
  else
    match l.drop ds.length with
    | '.' :: r1 => matchBareAt (r1.dropWhile isSpaceChar)
    | _ => none

/-- Scanner for `re.findall`: walk the text left to right; at each
position not covered by a previous match, try `matchBareAt`; on a
match, emit it and resume after its end (matches are non-overlapping,
leftmost first, exactly as `re.findall` produces them).  `skip` counts
the characters of the current match still to be stepped over. -/
def scanBare : Nat → Str → List Str
  | _, [] => []
  | skip, c :: cs =>
    match skip with
    | Nat.succ k => scanBare k cs
    | 0 =>
      match matchBareAt (c :: cs) with
      | some (m, rest) => m :: scanBare (cs.length - rest.length) cs
      | none => scanBare 0 cs

/-- Embedding of `re.findall(r'Response [A-Z]', l)`. -/
def findAllBare (l : Str) : List Str := scanBare 0 l

/-- Scanner for the numbered pattern, same discipline as `scanBare`. -/
def scanNumbered : Nat → Str → List Str
  | _, [] => []
  | skip, c :: cs =>
    match skip with
    | Nat.succ k => scanNumbered k cs
    | 0 =>
      match matchNumberedAt (c :: cs) with
      | some (m, rest) => m :: scanNumbered (cs.length - rest.length) cs
      | none => scanNumbered 0 cs

/-- Embedding of `re.findall(r'\d+\.\s*Response [A-Z]', l)` composed with
the label extraction `re.search(r'Response [A-Z]', m).group()`. -/
def findAllNumbered (l : Str) : List Str := scanNumbered 0 l

/-- Find the first occurrence of `sep` in `t`: returns
`some (pre, post)` with `t = pre ++ sep ++ post` and `sep` not occurring
in `pre ++ sep` before that point, or `none` when `sep` does not occur. -/
def splitFirst (sep : Str) : Str → Option (Str × Str)
  | [] => none
  | c :: cs =>
    if sep.isPrefixOf (c :: cs) then some ([], (c :: cs).drop sep.length)
    else (splitFirst sep cs).map (fun pr => (c :: pr.1, pr.2))

/-- Text before the first occurrence of `sep` in `t` (all of `t` when
`sep` does not occur). -/
def takeBeforeFirst (sep t : Str) : Str :=
  match splitFirst sep t with
  | some (pre, _) => pre
  | none => t

/-- The literal marker `"FINAL RANKING:"`. -/
def finalRankingMarker : Str := "FINAL RANKING:".toList

/-- Embedding of `parse_ranking_from_text` (`backend/council.py`).
The source computes `parts = ranking_text.split("FINAL RANKING:")` and
works on `parts[1]`, which is the text between the first occurrence of
the marker and the next occurrence (or the end of the text); the guard
`"FINAL RANKING:" in ranking_text` is exactly `splitFirst` succeeding,
and `len(parts) >= 2` always holds then. -/
def parse_ranking_from_text (ranking_text : Str) : List Str :=
  match splitFirst finalRankingMarker ranking_text with
  | some (_, afterFirst) =>
    let ranking_section := takeBeforeFirst finalRankingMarker afterFirst
    let numbered_matches := findAllNumbered ranking_section
    if numbered_matches.isEmpty then findAllBare ranking_section
    else numbered_matches
  | none => findAllBare ranking_text

/-- Text after the last occurrence of `sep` in `t` (all of `t` when `sep`
does not occur), computed by locating the first occurrence of the
reversed separator in the reversed text. -/
def afterLast (sep t : Str) : Str :=
  match splitFirst sep.reverse t.reverse with
  | some (pre, _) => pre.reverse
  | none => t

/-- Modelled from the spec: a variant of the ranking parser that, as the
spec demands, takes the text after the **last** occurrence of the marker
as the section to extract labels from.  Only used to compare with the
source's `parse_ranking_from_text`, which uses `parts[1]`, the section
after the **first** occurrence. -/
def specParseFromLastSection (ranking_text : Str) : List Str :=
  match splitFirst finalRankingMarker ranking_text with
  | some _ =>
    let ranking_section := afterLast finalRankingMarker ranking_text
    let numbered_matches := findAllNumbered ranking_section
    if numbered_matches.isEmpty then findAllBare ranking_section
    else numbered_matches
  | none => findAllBare ranking_text

/-! ### Configuration (`backend/config.py`) -/

/-- Embedding of `COUNCIL_MODELS`: the five council member identifiers,
in declaration order. -/
def COUNCIL_MODELS : List Str :=
  ["meta-llama/llama-3.1-70b-instruct:therapist".toList,
   "meta-llama/llama-3.1-70b-instruct:psychiatrist".toList,
   "meta-llama/llama-3.1-70b-instruct:trainer".toList,
   "meta-llama/llama-3.1-70b-instruct:doctor".toList,
   "meta-llama/llama-3.1-70b-instruct:psychologist".toList]

/-- Embedding of `CHAIRMAN_MODEL`. -/
def CHAIRMAN_MODEL : Str := "meta-llama/llama-3.1-70b-instruct".toList

/-- Embedding of `ROLE_PROMPTS` as an association list in declaration order. -/
def ROLE_PROMPTS : List (Str × Str) :=
  [("meta-llama/llama-3.1-70b-instruct:therapist".toList,
    ("You are a licensed therapist specializing in cognitive-behavioral therapy (CBT), emotional processing, and talk therapy.\n\nFocus on:\n- Identifying and reframing cognitive distortions and negative thought patterns\n- Emotional validation and creating safe space for feelings\n- Building healthy coping strategies and resilience\n- Exploring relationship dynamics and communication patterns\n- Therapeutic techniques like journaling, mindfulness, grounding exercises\n\nApproach: Compassionate, non-judgmental, focused on emotional insight and behavioral change through talk therapy.").toList),
   ("meta-llama/llama-3.1-70b-instruct:psychiatrist".toList,
    ("You are a board-certified psychiatrist with expertise in mental health disorders, psychopharmacology, and clinical diagnosis.\n\nFocus on:\n- Clinical assessment using DSM-5 criteria\n- Differential diagnosis of mental health conditions\n- Medication options and pharmacological interventions when appropriate\n- Neurobiological and genetic factors in mental health\n- Identifying when medical intervention is necessary\n- Comorbidities and complex cases\n\nApproach: Medical/clinical lens with compassion, evidence-based medicine, risk assessment.").toList),
   ("meta-llama/llama-3.1-70b-instruct:trainer".toList,
    ("You are a certified personal trainer and nutrition specialist with expertise in fitness, body composition, and physical wellness.\n\nFocus on:\n- Exercise programming and movement for mental health\n- Body composition, fitness goals, and realistic physical expectations\n- Nutrition and its impact on mood and energy\n- Building sustainable healthy habits around physical activity\n- Body positivity and healthy relationship with exercise\n- Physical activity as mental health intervention\n\nApproach: Encouraging, body-positive, focused on health over appearance, science-based fitness.").toList),
   ("meta-llama/llama-3.1-70b-instruct:doctor".toList,
    ("You are a general practitioner (family medicine doctor) with holistic health expertise.\n\nFocus on:\n- Ruling out underlying medical conditions (thyroid, hormonal, metabolic)\n- Physical symptoms that may affect mental/emotional health\n- Lifestyle factors: sleep, nutrition, substance use\n- Preventive care and health screening\n- When to refer to specialists\n- Mind-body connection and physical health\x27s impact on wellbeing\n\nApproach: Holistic, practical, focused on physical health screening and lifestyle medicine.").toList),
   ("meta-llama/llama-3.1-70b-instruct:psychologist".toList,
    ("You are a clinical psychologist with a PhD in behavioral science and research expertise.\n\nFocus on:\n- Evidence-based psychological interventions (CBT, DBT, ACT, etc.)\n- Behavioral analysis and reinforcement patterns\n- Research-backed techniques for behavior change\n- Psychological assessment and measurement\n- Cognitive science and how thoughts shape experience\n- Long-term behavior modification strategies\n\nApproach: Scientific, research-oriented, evidence-based practice, focused on measurable interventions.").toList)]

/-- Embedding of `ROLE_NAMES` as an association list in declaration order. -/
def ROLE_NAMES : List (Str × Str) :=
  [("meta-llama/llama-3.1-70b-instruct:therapist".toList, "Therapist".toList),
   ("meta-llama/llama-3.1-70b-instruct:psychiatrist".toList, "Psychiatrist".toList),
   ("meta-llama/llama-3.1-70b-instruct:trainer".toList, "Personal Trainer".toList),
   ("meta-llama/llama-3.1-70b-instruct:doctor".toList, "Doctor (GP)".toList),
   ("meta-llama/llama-3.1-70b-instruct:psychologist".toList, "Psychologist".toList)]

/-- Embedding of `CRISIS_KEYWORDS`. -/
def CRISIS_KEYWORDS : List Str :=
  ["suicide".toList, "suicidal".toList, "kill myself".toList, "end my life".toList,
   "want to die".toList,
   "self-harm".toList, "cutting".toList, "hurting myself".toList,
   "eating disorder".toList, "anorexia".toList, "bulimia".toList, "starving".toList,
   "abuse".toList, "being abused".toList, "domestic violence".toList,
   "psychosis".toList, "hearing voices".toList, "hallucinations".toList,
   "overdose".toList, "pills".toList]

/-- Embedding of `MEDICAL_DISCLAIMER`. -/
def MEDICAL_DISCLAIMER : Str :=
  ("⚠️ IMPORTANT MEDICAL DISCLAIMER:\nThis is an AI-powered wellness reflection tool for educational and self-exploration purposes only.\nThis is NOT medical advice, therapy, or professional healthcare.\nAlways consult licensed healthcare professionals for medical, mental health, or wellness concerns.\nIf you\x27re in crisis, please contact emergency services or a crisis hotline immediately.\n").toList

/-- Embedding of Python `dict.get(key, default)` on an association list. -/
def lookupD (l : List (Str × Str)) (key default : Str) : Str := (l.lookup key).getD default

/-- Embedding of Python substring containment `needle in hay`. -/
def containsSub (needle : Str) : Str → Bool
  | [] => needle.isEmpty
  | c :: cs => needle.isPrefixOf (c :: cs) || containsSub needle cs

/-- Embedding of `check_for_crisis` (`backend/council.py`): lower-case the
query and test each crisis keyword for substring containment. -/
def check_for_crisis (user_query : Str) : Bool :=
  let query_lower := user_query.map Char.toLower
  CRISIS_KEYWORDS.any (fun keyword => containsSub keyword query_lower)

/-! ### Data model of the three-stage pipeline -/

/-- One entry of the Stage-1 result list (`{"model", "response", "role"}`). -/
structure Stage1Entry where
  model : Str
  response : Str
  role : Str
deriving DecidableEq

/-- One entry of the Stage-2 result list
(`{"model", "ranking", "parsed_ranking", "role"}`). -/
structure Stage2Entry where
  model : Str
  ranking : Str
  parsed_ranking : List Str
  role : Str
deriving DecidableEq

/-- The Stage-3 result (`{"model", "response"}`). -/
structure Stage3Result where
  model : Str
  response : Str
deriving DecidableEq

/-- One entry of the aggregate ranking list
(`{"model", "average_rank", "rankings_count"}`).  The source stores
`average_rank = round(avg_rank, 2)`, a number with two decimal places;
it is represented here exactly, scaled by 100 into a natural number
(`average_rank_x100 = 150` stands for the stored value `1.5`), which is
an order-preserving encoding of the sort key. -/
structure AggregateEntry where
  model : Str
  average_rank_x100 : Nat
  rankings_count : Nat
deriving DecidableEq

/-- The orchestrator metadata dict.  In the total-failure branch the
source returns only `{"is_crisis": …}`; the two absent keys are `none`. -/
structure CouncilMetadata where
  label_to_model : Option (List (Str × Str))
  aggregate_rankings : Option (List AggregateEntry)
  is_crisis : Bool
deriving DecidableEq

/-- One `{role, content}` turn of an agent query. -/
abbrev Msg := Str × Str

/-- One collaborator invocation: the queried model and its message list. -/
abbrev Call := Str × List Msg

/-- The external `query_model` collaborator: `none` models failure or
timeout, `some content` a reply with that text content. -/
abbrev QueryOracle := Str → List Msg → Option Str

def systemRole : Str := "system".toList

def userRole : Str := "user".toList

/-! ### Stage 1 (`stage1_collect_responses`) -/

/-- The Stage-1 user prompt: disclaimer, user query, instruction. -/
def queryWithDisclaimer (user_query : Str) : Str :=
  MEDICAL_DISCLAIMER ++ "\n\nUser\x27s Question/Concern:\n".toList ++ user_query
    ++ "\n\nPlease provide your professional perspective on this concern.".toList

/-- The message list sent to one council member in Stage 1. -/
def stage1Messages (user_query model : Str) : List Msg :=
  [(systemRole, lookupD ROLE_PROMPTS model []),
   (userRole, queryWithDisclaimer user_query)]

/-- Embedding of `stage1_collect_responses`: query every council model
concurrently and keep, in `COUNCIL_MODELS` order, the entries of the
successful replies (`if response is not None`).  Also returns the list
of issued calls. -/
def stage1_collect_responses (user_query : Str) (o : QueryOracle) :
    List Stage1Entry × List Call :=
  let tasks := COUNCIL_MODELS.map (fun model => (model, stage1Messages user_query model))
  (COUNCIL_MODELS.filterMap (fun model =>
      (o model (stage1Messages user_query model)).map (fun content =>
        { model := model, response := content,
          role := lookupD ROLE_NAMES model "Health Professional".toList })),
   tasks)

/-! ### Stage 2 (`stage2_collect_rankings`) -/

/-- Embedding of `labels = [chr(65 + i) for i in range(len(stage1_results))]`. -/
def stage2Labels (stage1_results : List Stage1Entry) : Str :=
  (List.range stage1_results.length).map (fun i => Char.ofNat (65 + i))

/-- Embedding of the `label_to_model` dict comprehension:
`{f"Response {label}": result['model'] for label, result in zip(labels, stage1_results)}`. -/
def stage2LabelToModel (stage1_results : List Stage1Entry) : List (Str × Str) :=
  ((stage2Labels stage1_results).zip stage1_results).map
    (fun lr => ("Response ".toList ++ [lr.1], lr.2.model))

/-- Embedding of `responses_text`, the anonymized transcript. -/
def responsesText (stage1_results : List Stage1Entry) : Str :=
  List.intercalate "\n\n".toList
    (((stage2Labels stage1_results).zip stage1_results).map
      (fun lr => "Response ".toList ++ [lr.1] ++ ":\n".toList ++ lr.2.response))

/-- Embedding of `ranking_prompt`. -/
def rankingPrompt (user_query : Str) (stage1_results : List Stage1Entry) : Str :=
  "You are a healthcare professional conducting peer review of wellness recommendations.\n\nUser\x27s Concern: ".toList
    ++ user_query
    ++ "\n\nHere are responses from different healthcare professionals (anonymized for unbiased review):\n\n".toList
    ++ responsesText stage1_results
    ++ ("\n\nYour task as a healthcare professional:\n1. First, evaluate each response individually. For each response, consider:\n   - Appropriateness and safety of the advice given\n   - Whether important medical/psychological factors were considered\n   - Potential risks, contraindications, or red flags\n   - Completeness of the professional perspective\n   - Evidence-based quality and practical applicability\n   - Compassion and person-centered approach\n\n2. Then, at the very end of your response, provide your FINAL RANKING of which responses would be most helpful and safe for this person.\n\nIMPORTANT: Your final ranking MUST be formatted EXACTLY as follows:\n- Start with the line \"FINAL RANKING:\" (all caps, with colon)\n- Then list the responses from best to worst as a numbered list\n- Each line should be: number, period, space, then ONLY the response label (e.g., \"1. Response A\")\n- Do not add any other text or explanations in the ranking section\n\nExample format:\n\nResponse A provides compassionate insight into emotional factors but may miss underlying medical considerations...\nResponse B offers evidence-based interventions and appropriately addresses safety concerns...\nResponse C takes a holistic approach but could be more specific...\n\nFINAL RANKING:\n1. Response B\n2. Response C\n3. Response A\n\nNow provide your peer evaluation and ranking:").toList

/-- The message list sent to one council member in Stage 2. -/
def stage2Messages (user_query : Str) (stage1_results : List Stage1Entry) (model : Str) :
    List Msg :=
  [(systemRole, lookupD ROLE_PROMPTS model []),
   (userRole, rankingPrompt user_query stage1_results)]

/-- Embedding of `stage2_collect_rankings`: build the anonymized labels
and the label-to-model map, fan the ranking prompt out to every council
model, and keep one `Stage2Entry` per successful reply, storing both the
raw text and `parse_ranking_from_text` of it.  Also returns the list of
issued calls. -/
def stage2_collect_rankings (user_query : Str) (stage1_results : List Stage1Entry)
    (o : QueryOracle) : (List Stage2Entry × List (Str × Str)) × List Call :=
  let label_to_model := stage2LabelToModel stage1_results
  let tasks := COUNCIL_MODELS.map (fun model => (model, stage2Messages user_query stage1_results model))
  let stage2_results := COUNCIL_MODELS.filterMap (fun model =>
    (o model (stage2Messages user_query stage1_results model)).map (fun full_text =>
      { model := model, ranking := full_text,
        parsed_ranking := parse_ranking_from_text full_text,
        role := lookupD ROLE_NAMES model "Health Professional".toList }))
  ((stage2_results, label_to_model), tasks)

/-! ### Stage 3 (`stage3_synthesize_final`) -/

/-- Embedding of `stage1_text` in the chairman prompt. -/
def stage1Text (stage1_results : List Stage1Entry) : Str :=
  List.intercalate "\n\n".toList
    (stage1_results.map (fun result =>
      "Model: ".toList ++ result.model ++ "\nResponse: ".toList ++ result.response))

/-- Embedding of `stage2_text` in the chairman prompt. -/
def stage2Text (stage2_results : List Stage2Entry) : Str :=
  List.intercalate "\n\n".toList
    (stage2_results.map (fun result =>
      "Model: ".toList ++ result.model ++ "\nRanking: ".toList ++ result.ranking))

/-- Embedding of `chairman_prompt`. -/
def chairmanPrompt (user_query : Str) (stage1_results : List Stage1Entry)
    (stage2_results : List Stage2Entry) : Str :=
  "You are an Integrative Wellness Coordinator synthesizing input from a multidisciplinary healthcare team.\n\n".toList
    ++ MEDICAL_DISCLAIMER
    ++ "\n\nUser\x27s Concern: ".toList
    ++ user_query
    ++ "\n\nPROFESSIONAL PERSPECTIVES (Stage 1):\n".toList
    ++ stage1Text stage1_results
    ++ "\n\nPEER EVALUATIONS (Stage 2):\n".toList
    ++ stage2Text stage2_results
    ++ ("\n\nYour task as Integrative Wellness Coordinator:\nSynthesize all professional perspectives into a holistic, compassionate wellness recommendation that:\n\n1. **Safety First**: Flag any medical red flags or concerns requiring immediate professional intervention\n2. **Integrative Approach**: Combine physical, mental, emotional, and behavioral health dimensions\n3. **Actionable Steps**: Provide clear, practical next steps the person can take\n4. **Professional Care**: Emphasize when and why to seek specific professional help\n5. **Evidence-Based**: Prioritize interventions with research support\n6. **Person-Centered**: Be compassionate, non-judgmental, and empowering\n7. **Patterns of Agreement**: Highlight where multiple professionals agree (strong signal)\n8. **Balanced Perspective**: Address different viewpoints respectfully\n\nStructure your response as:\n- **Key Insights**: What the council collectively understands about this concern\n- **Recommended Approach**: Integrated action plan combining perspectives\n- **Important Considerations**: Safety concerns, when to seek professional help, what to monitor\n- **Next Steps**: Specific, actionable recommendations\n\nProvide your integrative wellness recommendation:").toList

/-- The message list of the single chairman call. -/
def chairmanMessages (user_query : Str) (stage1_results : List Stage1Entry)
    (stage2_results : List Stage2Entry) : List Msg :=
  [(userRole, chairmanPrompt user_query stage1_results stage2_results)]

/-- Embedding of `stage3_synthesize_final`: one call to the chairman
model; on failure return the sentinel error result instead of aborting.
Also returns the (single-element) list of issued calls. -/
def stage3_synthesize_final (user_query : Str) (stage1_results : List Stage1Entry)
    (stage2_results : List Stage2Entry) (o : QueryOracle) : Stage3Result × List Call :=
  let msgs := chairmanMessages user_query stage1_results stage2_results
  match o CHAIRMAN_MODEL msgs with
  | none =>
    ({ model := CHAIRMAN_MODEL,
       response := "Error: Unable to generate final synthesis.".toList },
     [(CHAIRMAN_MODEL, msgs)])
  | some content =>
    ({ model := CHAIRMAN_MODEL, response := content }, [(CHAIRMAN_MODEL, msgs)])

/-! ### Aggregation (`calculate_aggregate_rankings`) -/

/-- Rounding of the exact average `sum / len` to two decimal places,
scaled by 100: the nearest integer to `100 * sum / len`, halves to even
(the rounding of Python's `round`, applied here to the exact rational
value of `sum(positions) / len(positions)`). -/
def round_x100 (sum len : Nat) : Nat :=
  let q := (100 * sum) / len
  let r := (100 * sum) % len
  if 2 * r < len then q
  else if len < 2 * r then q + 1
  else if q % 2 = 0 then q else q + 1

/-- Embedding of `model_positions[model_name].append(position)` on a
`defaultdict(list)`: association list in first-insertion order, appends
going to the existing entry. -/
def addPos : List (Str × List Nat) → Str → Nat → List (Str × List Nat)
  | [], model, pos => [(model, [pos])]
  | (m, ps) :: rest, model, pos =>
    if m = model then (m, ps ++ [pos]) :: rest
    else (m, ps) :: addPos rest model pos

/-- Embedding of `enumerate(parsed_ranking, start=1)`. -/
def withPositions (start : Nat) : List Str → List (Nat × Str)
  | [] => []
  | x :: xs => (start, x) :: withPositions (start + 1) xs

/-- Record one reviewer's parsed ranking into the positions accumulator:
walk the list with 1-based positions and append the position for every
label present in `label_to_model` (labels absent from the map are
skipped). -/
def recordParsed (label_to_model : List (Str × Str)) (acc : List (Str × List Nat))
    (parsed_ranking : List Str) : List (Str × List Nat) :=
  (withPositions 1 parsed_ranking).foldl (fun acc pl =>
    match label_to_model.lookup pl.2 with
    | some model_name => addPos acc model_name pl.1
    | none => acc) acc

/-- The `model_positions` accumulator after processing every reviewer's
parsed label list. -/
def collectModelPositions (parsed_lists : List (List Str))
    (label_to_model : List (Str × Str)) : List (Str × List Nat) :=
  parsed_lists.foldl (recordParsed label_to_model) []

/-- Stable insertion into a list sorted ascending by `average_rank_x100`:
the new entry goes before the first entry of equal or larger key, so
entries with equal keys keep their relative order. -/
def insertByRank (x : AggregateEntry) : List AggregateEntry → List AggregateEntry
  | [] => [x]
  | y :: ys =>
    if x.average_rank_x100 ≤ y.average_rank_x100 then x :: y :: ys
    else y :: insertByRank x ys

/-- Stable sort ascending by `average_rank_x100`, the embedding of
`aggregate.sort(key=lambda x: x['average_rank'])` (Python's list sort is
stable; any stable sort by the same key yields the same list). -/
def sortByRank : List AggregateEntry → List AggregateEntry
  | [] => []
  | x :: xs => insertByRank x (sortByRank xs)

/-- The aggregate list before the final sort, in first-encounter order:
one entry with the rounded average per model with a non-empty position
list (`if positions:`). -/
def aggregateUnsorted (parsed_lists : List (List Str))
    (label_to_model : List (Str × Str)) : List AggregateEntry :=
  (collectModelPositions parsed_lists label_to_model).filterMap (fun mp =>
    if mp.2.isEmpty then none
    else some { model := mp.1,
                average_rank_x100 := round_x100 mp.2.sum mp.2.length,
                rankings_count := mp.2.length })

/-- The aggregation over already-parsed label lists: collect per-model
positions, build the per-model entries, then sort by average rank. -/
def aggregateFromParsed (parsed_lists : List (List Str))
    (label_to_model : List (Str × Str)) : List AggregateEntry :=
  sortByRank (aggregateUnsorted parsed_lists label_to_model)

/-- Embedding of `calculate_aggregate_rankings`: the source loops over
`stage2_results` and re-parses each entry's raw `ranking` text with
`parse_ranking_from_text` (it does not read the stored `parsed_ranking`
field); that loop is the `map` below. -/
def calculate_aggregate_rankings (stage2_results : List Stage2Entry)
    (label_to_model : List (Str × Str)) : List AggregateEntry :=
  aggregateFromParsed
    (stage2_results.map (fun ranking => parse_ranking_from_text ranking.ranking))
    label_to_model

/-! ### Orchestrator (`run_full_council`) -/

/-- Embedding of `run_full_council`: crisis check, Stage 1, and on total
Stage-1 failure the error tuple with only the crisis flag in the
metadata; otherwise Stage 2, aggregation, Stage 3 and the full metadata.
The second component is the list of collaborator calls issued during the
run, in issue order. -/
def run_full_council (user_query : Str) (o : QueryOracle) :
    (List Stage1Entry × List Stage2Entry × Stage3Result × CouncilMetadata) × List Call :=
  let is_crisis := check_for_crisis user_query
  let s1 := stage1_collect_responses user_query o
  let stage1_results := s1.1
  if stage1_results.isEmpty then
    (([], [],
      { model := "error".toList,
        response := "All wellness professionals failed to respond. Please try again.".toList },
      { label_to_model := none, aggregate_rankings := none, is_crisis := is_crisis }),
     s1.2)
  else
    let s2 := stage2_collect_rankings user_query stage1_results o
    let stage2_results := s2.1.1
    let label_to_model := s2.1.2
    let aggregate_rankings := calculate_aggregate_rankings stage2_results label_to_model
    let s3 := stage3_synthesize_final user_query stage1_results stage2_results o
    ((stage1_results, stage2_results, s3.1,
      { label_to_model := some label_to_model,
        aggregate_rankings := some aggregate_rankings, is_crisis := is_crisis }),
     s1.2 ++ s2.2 ++ s3.2)

/-! ### Concrete inputs used by the claim theorems -/

/-- A reviewer text in which `"FINAL RANKING:"` occurs twice. -/
def cexC1 : Str := "FINAL RANKING:\n1. Response A\nFINAL RANKING:\n1. Response B".toList

/-- The text of `cexC1` after its first marker occurrence. -/
def restC1 : Str := "\n1. Response A\nFINAL RANKING:\n1. Response B".toList

/-- The text of `cexC1` between its first and second marker occurrences. -/
def midC1 : Str := "\n1. Response A\n".toList

/-- The text of `cexC1` after its second (last) marker occurrence. -/
def tailC1 : Str := "\n1. Response B".toList

/-- A placeholder Stage-1 entry. -/
def dummyStage1Entry : Stage1Entry :=
  { model := "m".toList, response := "r".toList, role := "p".toList }

/-- A Stage-1 result list with 27 entries, one more than the alphabet. -/
def stage1With27 : List Stage1Entry := List.replicate 27 dummyStage1Entry

/-- A Stage-1 result list with three entries. -/
def stage1Three : List Stage1Entry :=
  [{ model := "model-one".toList, response := "resp-one".toList, role := "role-one".toList },
   { model := "model-two".toList, response := "resp-two".toList, role := "role-two".toList },
   { model := "model-three".toList, response := "resp-three".toList, role := "role-three".toList }]

/-- A reviewer text with a well-formed ranking section. -/
def exMarkerText : Str := "FINAL RANKING:\n1. Response B\n2. Response A".toList

/-- A reviewer text with bare labels and no marker. -/
def exBareText : Str := "...Response C is strong, Response A is safer...".toList

/-- Two Stage-2 entries whose raw texts parse to
`[["Response A","Response B"], ["Response B","Response A"]]`. -/
def st2Pair : List Stage2Entry :=
  [{ model := "rev1".toList,
     ranking := "FINAL RANKING:\n1. Response A\n2. Response B".toList,
     parsed_ranking := ["Response A".toList, "Response B".toList],
     role := "r".toList },
   { model := "rev2".toList,
     ranking := "FINAL RANKING:\n1. Response B\n2. Response A".toList,
     parsed_ranking := ["Response B".toList, "Response A".toList],
     role := "r".toList }]

/-- The label map `{Response A: agent1, Response B: agent2}`. -/
def ltmPair : List (Str × Str) :=
  [("Response A".toList, "agent1".toList), ("Response B".toList, "agent2".toList)]

/-- A reviewer label list naming only a label outside the map. -/
def plC5 : List (List Str) := [["Response Q".toList]]

/-- A label map whose only agent is never named by `plC5`. -/
def ltmC5 : List (Str × Str) := [("Response A".toList, "agent1".toList)]

/-- Oracle under which every council model replies `"ok"` and the
chairman model fails. -/
def oracleC8 : QueryOracle :=
  fun model _ => if model = CHAIRMAN_MODEL then none else some "ok".toList

/-- A Stage-2 list whose stored parsed field is the parse of its raw text. -/
def st2C10 : List Stage2Entry :=
  [{ model := "rev".toList, ranking := exMarkerText,
     parsed_ranking := parse_ranking_from_text exMarkerText, role := "r".toList }]

/-- Oracle replying with a well-formed ranking text to every call. -/
def oracleC10 : QueryOracle := fun _ _ => some exMarkerText

/-! ### Helper lemmas -/

theorem splitFirst_isSome_iff (sep : Str) (hsep : sep ≠ []) :
    ∀ t : Str, (splitFirst sep t).isSome = true ↔ sep <:+: t := by
  intro t
  induction t with
  | nil => simp [splitFirst, List.infix_nil, hsep]
  | cons c cs ih =>
    rw [splitFirst]
    split
    · rename_i hp
      simp only [Option.isSome_some, true_iff]
      exact List.infix_cons_iff.mpr (Or.inl ( List.isPrefixOf_iff_prefix.mp hp))
    · rename_i hp
      rw [List.infix_cons_iff]
      cases h : splitFirst sep cs with
      | none =>
        simp only [h, Option.map_none', Option.isSome_none] at ih ⊢
        constructor
        · intro hfalse; exact absurd hfalse (by simp)
        · rintro (hpre | hinf)
          · exact absurd ( List.isPrefixOf_iff_prefix.mpr hpre) (by simpa using hp)
          · exact absurd (ih.mpr hinf) (by simp)
      | some pr =>
        simp only [h, Option.map_some', Option.isSome_some, true_iff] at ih ⊢
        exact Or.inr ih

theorem containsSub_iff (needle : Str) :
    ∀ hay : Str, containsSub needle hay = true ↔ needle <:+: hay := by
  intro hay
  induction hay with
  | nil => simp [containsSub, List.isEmpty_iff, List.infix_nil]
  | cons c cs ih =>
    simp [containsSub, List.isPrefixOf_iff_prefix, ih, List.infix_cons_iff]

theorem mem_insertByRank {a x : AggregateEntry} {l : List AggregateEntry} :
    a ∈ insertByRank x l ↔ a = x ∨ a ∈ l := by
  induction l with
  | nil => simp [insertByRank]
  | cons y ys ih =>
    rw [insertByRank]
    split
    · simp
    · simp [ih]
      tauto

theorem insertByRank_pairwise {x : AggregateEntry} {l : List AggregateEntry}
    (hl : l.Pairwise (fun a b => a.average_rank_x100 ≤ b.average_rank_x100)) :
    (insertByRank x l).Pairwise (fun a b => a.average_rank_x100 ≤ b.average_rank_x100) := by
  induction l with
  | nil => simp [insertByRank]
  | cons y ys ih =>
    rw [insertByRank]
    rw [List.pairwise_cons] at hl
    split
    · rename_i hxy
      rw [List.pairwise_cons]
      refine ⟨?_, List.pairwise_cons.mpr hl⟩
      intro b hb
      rcases List.mem_cons.mp hb with hb | hb
      · exact hb ▸ hxy
      · exact le_trans hxy (hl.1 b hb)
    · rename_i hxy
      rw [List.pairwise_cons]
      refine ⟨?_, ih hl.2⟩
      intro b hb
      rcases mem_insertByRank.mp hb with hb | hb
      · exact hb ▸ le_of_not_le hxy
      · exact hl.1 b hb

theorem sortByRank_pairwise (l : List AggregateEntry) :
    (sortByRank l).Pairwise (fun a b => a.average_rank_x100 ≤ b.average_rank_x100) := by
  induction l with
  | nil => simp [sortByRank]
  | cons x xs ih => exact insertByRank_pairwise ih

theorem mem_sortByRank {a : AggregateEntry} {l : List AggregateEntry} :
    a ∈ sortByRank l ↔ a ∈ l := by
  induction l with
  | nil => simp [sortByRank]
  | cons x xs ih => rw [sortByRank, mem_insertByRank, ih, List.mem_cons]

theorem filter_insertByRank (x : AggregateEntry) (l : List AggregateEntry) (k : Nat) :
    (insertByRank x l).filter (fun e => e.average_rank_x100 == k) =
      if x.average_rank_x100 = k then
        x :: l.filter (fun e => e.average_rank_x100 == k)
      else l.filter (fun e => e.average_rank_x100 == k) := by
  induction l with
  | nil => simp [insertByRank, List.filter_cons]
  | cons y ys ih =>
    rw [insertByRank]
    split
    · rename_i hxy
      rw [List.filter_cons]
      split
      · rename_i hx
        simp only [beq_iff_eq] at hx
        simp [hx]
      · rename_i hx
        simp only [beq_iff_eq] at hx
        simp [hx]
    · rename_i hxy
      have hyx : y.average_rank_x100 < x.average_rank_x100 := lt_of_not_le hxy
      rw [List.filter_cons, List.filter_cons, ih]
      by_cases hx : x.average_rank_x100 = k
      · have hy : ¬ y.average_rank_x100 = k := by omega
        simp [hx, hy]
      · simp [hx]

theorem filter_sortByRank (l : List AggregateEntry) (k : Nat) :
    (sortByRank l).filter (fun e => e.average_rank_x100 == k) =
      l.filter (fun e => e.average_rank_x100 == k) := by
  induction l with
  | nil => simp [sortByRank]
  | cons x xs ih =>
    rw [sortByRank, filter_insertByRank, List.filter_cons, ih]
    by_cases hx : x.average_rank_x100 = k
    · simp [hx]
    · simp [hx]

theorem mem_addPos {acc : List (Str × List Nat)} {m : Str} {ps : List Nat}
    {model : Str} {pos : Nat} (h : (m, ps) ∈ addPos acc model pos) :
    (∃ ps0, (m, ps0) ∈ acc) ∨ m = model := by
  induction acc with
  | nil =>
    simp [addPos] at h
    exact Or.inr h.1
  | cons hd tl ih =>
    obtain ⟨m1, ps1⟩ := hd
    rw [addPos] at h
    split at h
    · rcases List.mem_cons.mp h with h | h
      · simp only [Prod.mk.injEq] at h
        exact Or.inl ⟨ps1, by rw [h.1]; exact List.mem_cons_self _ _⟩
      · exact Or.inl ⟨ps, List.mem_cons_of_mem _ h⟩
    · rcases List.mem_cons.mp h with h | h
      · simp only [Prod.mk.injEq] at h
        exact Or.inl ⟨ps1, by rw [h.1]; exact List.mem_cons_self _ _⟩
      · rcases ih h with ⟨ps0, hmem⟩ | heq
        · exact Or.inl ⟨ps0, List.mem_cons_of_mem _ hmem⟩
        · exact Or.inr heq

theorem mem_foldl_record (label_to_model : List (Str × Str)) (parsed : List Str) :
    ∀ (s : Nat) (acc : List (Str × List Nat)) (m : Str) (ps : List Nat),
      (m, ps) ∈ (withPositions s parsed).foldl (fun acc pl =>
          match label_to_model.lookup pl.2 with
          | some model_name => addPos acc model_name pl.1
          | none => acc) acc →
      (∃ ps0, (m, ps0) ∈ acc) ∨ ∃ label ∈ parsed, label_to_model.lookup label = some m := by
  induction parsed with
  | nil =>
    intro s acc m ps h
    simp [withPositions] at h
    exact Or.inl ⟨ps, h⟩
  | cons x xs ih =>
    intro s acc m ps h
    rw [withPositions, List.foldl_cons] at h
    rcases ih (s + 1) _ m ps h with hacc | ⟨label, hmem, hlook⟩
    · obtain ⟨ps0, hps0⟩ := hacc
      cases hlk : label_to_model.lookup x with
      | some model_name =>
        simp only [hlk] at hps0
        rcases mem_addPos hps0 with ⟨ps1, hps1⟩ | heq
        · exact Or.inl ⟨ps1, hps1⟩
        · exact Or.inr ⟨x, List.mem_cons_self x xs, by rw [hlk, heq]⟩
      | none =>
        simp only [hlk] at hps0
        exact Or.inl ⟨ps0, hps0⟩
    · exact Or.inr ⟨label, List.mem_cons_of_mem x hmem, hlook⟩

theorem mem_recordParsed {label_to_model : List (Str × Str)} {acc : List (Str × List Nat)}
    {parsed : List Str} {m : Str} {ps : List Nat}
    (h : (m, ps) ∈ recordParsed label_to_model acc parsed) :
    (∃ ps0, (m, ps0) ∈ acc) ∨ ∃ label ∈ parsed, label_to_model.lookup label = some m :=
  mem_foldl_record label_to_model parsed 1 acc m ps h

theorem mem_collect_aux (label_to_model : List (Str × Str)) (parsed_lists : List (List Str)) :
    ∀ (acc : List (Str × List Nat)) (m : Str) (ps : List Nat),
      (m, ps) ∈ parsed_lists.foldl (recordParsed label_to_model) acc →
      (∃ ps0, (m, ps0) ∈ acc) ∨
        ∃ lst ∈ parsed_lists, ∃ label ∈ lst, label_to_model.lookup label = some m := by
  induction parsed_lists with
  | nil =>
    intro acc m ps h
    simp at h
    exact Or.inl ⟨ps, h⟩
  | cons l ls ih =>
    intro acc m ps h
    rw [List.foldl_cons] at h
    rcases ih _ m ps h with ⟨ps0, hps0⟩ | ⟨lst, hmem, hrest⟩
    · rcases mem_recordParsed hps0 with hacc | ⟨label, hl, hlook⟩
      · exact Or.inl hacc
      · exact Or.inr ⟨l, List.mem_cons_self l ls, label, hl, hlook⟩
    · exact Or.inr ⟨lst, List.mem_cons_of_mem l hmem, hrest⟩

theorem mem_collectModelPositions {parsed_lists : List (List Str)}
    {label_to_model : List (Str × Str)} {m : Str} {ps : List Nat}
    (h : (m, ps) ∈ collectModelPositions parsed_lists label_to_model) :
    ∃ lst ∈ parsed_lists, ∃ label ∈ lst, label_to_model.lookup label = some m := by
  rcases mem_collect_aux label_to_model parsed_lists [] m ps h with ⟨ps0, hps0⟩ | hfound
  · simp at hps0
  · exact hfound

theorem mem_aggregateFromParsed {parsed_lists : List (List Str)}
    {label_to_model : List (Str × Str)} {e : AggregateEntry}
    (h : e ∈ aggregateFromParsed parsed_lists label_to_model) :
    ∃ lst ∈ parsed_lists, ∃ label ∈ lst, label_to_model.lookup label = some e.model := by
  rw [aggregateFromParsed, mem_sortByRank, aggregateUnsorted, List.mem_filterMap] at h
  obtain ⟨mp, hmp, hsome⟩ := h
  split at hsome
  · exact absurd hsome (by simp)
  · have hmodel : e.model = mp.1 := by
      have := (Option.some.injEq _ _).mp hsome
      rw [← this]
    rw [hmodel]
    exact mem_collectModelPositions (by rwa [show (mp.1, mp.2) = mp from rfl])

/-! ### Claim theorems -/

/-- C1 counterexample.  The claim states that for texts with more than one
`"FINAL RANKING:"` occurrence the parser extracts labels only from the
trailing section after the last occurrence.  On `cexC1` (two occurrences:
the first followed by `1. Response A`, the last by `1. Response B`) the
source's `parts[1]` extraction yields `["Response A"]`, taken from the
section after the **first** occurrence, while the last-occurrence rule
demanded by the claim (`specParseFromLastSection`) yields
`["Response B"]`. -/
theorem C1_counterexample :
    parse_ranking_from_text cexC1 = ["Response A".toList] ∧
    specParseFromLastSection cexC1 = ["Response B".toList] ∧
    afterLast finalRankingMarker cexC1 = tailC1 ∧
    parse_ranking_from_text cexC1 ≠ specParseFromLastSection cexC1 :=
  ⟨by decide, by decide, by decide, by decide⟩

/-- C1 as amended: whenever the marker occurs (`splitFirst` returns the
text `rest` after the **first** occurrence), and in particular when it
occurs again inside `rest` (so `mid` is the text strictly between the
first and the second occurrence), `parse_ranking_from_text` extracts its
label list from `mid` — the section after the first occurrence — and not
from the trailing section. -/
theorem C1_section_after_first (t pre rest mid tl : Str)
    (h1 : splitFirst finalRankingMarker t = some (pre, rest))
    (h2 : splitFirst finalRankingMarker rest = some (mid, tl)) :
    parse_ranking_from_text t =
      (if (findAllNumbered mid).isEmpty then findAllBare mid else findAllNumbered mid) := by
  simp only [parse_ranking_from_text, h1, takeBeforeFirst, h2]

/-- Witness for `C1_section_after_first` at the two-marker text `cexC1`. -/
theorem C1_section_after_first_witness :
    splitFirst finalRankingMarker cexC1 = some ([], restC1) ∧
    splitFirst finalRankingMarker restC1 = some (midC1, tailC1) ∧
    parse_ranking_from_text cexC1 =
      (if (findAllNumbered midC1).isEmpty then findAllBare midC1 else findAllNumbered midC1) :=
  ⟨by decide, by decide,
   C1_section_after_first cexC1 [] restC1 midC1 tailC1 (by decide) (by decide)⟩

/-- C2 counterexample.  The claim states that label assignment fails
loudly rather than wrapping when a Stage-1 list has more than 26
entries.  On a 27-entry list the source's `chr(65 + i)` comprehension
returns normally: it produces 27 labels, the 27th being the non-letter
`'['`, and the label map gets 27 entries including the key
`"Response ["`. -/
theorem C2_counterexample :
    stage2Labels stage1With27 = "ABCDEFGHIJKLMNOPQRSTUVWXYZ[".toList ∧
    (stage2LabelToModel stage1With27).length = 27 ∧
    ("Response [".toList, "m".toList) ∈ stage2LabelToModel stage1With27 ∧
    isUpperLetter '[' = false :=
  ⟨by decide, by decide, by decide, by decide⟩

/-- C2 as amended: on a Stage-1 list with more than 26 entries label
assignment does not fail — it still produces one label per entry and a
full-size label map — and it wraps past `'Z'`: position 26 gets
`chr(91) = '['`, so at least one label is not an uppercase letter. -/
theorem C2_no_failure_past_26 (st1 : List Stage1Entry) (h : 26 < st1.length) :
    (stage2Labels st1).length = st1.length ∧
    (stage2LabelToModel st1).length = st1.length ∧
    ∃ label ∈ stage2Labels st1, isUpperLetter label = false := by
  refine ⟨by simp [stage2Labels], ?_, ?_⟩
  · simp [stage2LabelToModel, List.length_zip, stage2Labels]
  · refine ⟨Char.ofNat 91, ?_, by decide⟩
    rw [stage2Labels]
    exact List.mem_map.mpr ⟨26, List.mem_range.mpr h, rfl⟩

/-- Witness for `C2_no_failure_past_26` at the 27-entry list. -/
theorem C2_no_failure_past_26_witness :
    26 < stage1With27.length ∧
    ((stage2Labels stage1With27).length = stage1With27.length ∧
     (stage2LabelToModel stage1With27).length = stage1With27.length ∧
     ∃ label ∈ stage2Labels stage1With27, isUpperLetter label = false) :=
  ⟨by decide, C2_no_failure_past_26 stage1With27 (by decide)⟩

/-- C3: the parser applies its three extraction rules in strict fallback
order.  When the marker occurs, `splitFirst` returns the text `rest`
after its first occurrence and `takeBeforeFirst … rest` is the section
the source works on (`parts[1]`): if the numbered pattern matches inside
that section the result is exactly those labels (rule 1); otherwise the
result is every bare `Response X` occurrence in that section in order
(rule 2), which is `[]` when nothing matches.  When the marker is absent
the result is every bare occurrence in the whole text (rule 3).  The
three concrete conjuncts are the spec's examples, the last returning the
empty list. -/
theorem C3_parser_fallback :
    (∀ t : Str,
      (∀ pre rest : Str, splitFirst finalRankingMarker t = some (pre, rest) →
        (findAllNumbered (takeBeforeFirst finalRankingMarker rest) ≠ [] →
          parse_ranking_from_text t =
            findAllNumbered (takeBeforeFirst finalRankingMarker rest)) ∧
        (findAllNumbered (takeBeforeFirst finalRankingMarker rest) = [] →
          parse_ranking_from_text t =
            findAllBare (takeBeforeFirst finalRankingMarker rest))) ∧
      (¬ finalRankingMarker <:+: t → parse_ranking_from_text t = findAllBare t)) ∧
    parse_ranking_from_text exMarkerText = ["Response B".toList, "Response A".toList] ∧
    parse_ranking_from_text exBareText = ["Response C".toList, "Response A".toList] ∧
    parse_ranking_from_text "There is no ranking pattern here at all.".toList = [] := by
  refine ⟨?_, by decide, by decide, by decide⟩
  intro t
  constructor
  · intro pre rest h
    constructor
    · intro hne
      simp only [parse_ranking_from_text, h]
      rw [if_neg (by simpa [List.isEmpty_iff] using hne)]
    · intro he
      simp only [parse_ranking_from_text, h]
      rw [if_pos (by simpa [List.isEmpty_iff] using he)]
  · intro hni
    have hnone : splitFirst finalRankingMarker t = none := by
      cases hh : splitFirst finalRankingMarker t with
      | none => rfl
      | some pr =>
        exact absurd ((splitFirst_isSome_iff _ (by decide) t).mp (by simp [hh])) hni
    simp only [parse_ranking_from_text, hnone]

/-- Witness for `C3_parser_fallback`: rule 1 discharged on the marker
example, rule 3 discharged on the bare example. -/
theorem C3_parser_fallback_witness :
    parse_ranking_from_text exMarkerText =
      findAllNumbered (takeBeforeFirst finalRankingMarker
        "\n1. Response B\n2. Response A".toList) ∧
    ¬ finalRankingMarker <:+: exBareText ∧
    parse_ranking_from_text exBareText = findAllBare exBareText :=
  ⟨((C3_parser_fallback.1 exMarkerText).1 []
      "\n1. Response B\n2. Response A".toList (by decide)).1 (by decide),
   by decide,
   (C3_parser_fallback.1 exBareText).2 (by decide)⟩

/-- C7: for a non-empty Stage-1 list of size `N` (within the letter range
`N ≤ 26`, the regime the claim's letter sequence describes; beyond 26
see C2), the anonymizer assigns `label[i] = chr(65 + i)` in input order,
the `N` labels are pairwise distinct, and the label map has exactly `N`
entries mapping `"Response " ++ label[i]` to the `i`-th entry's model
identifier. -/
theorem C7_anonymizer_labels (st1 : List Stage1Entry) (hne : st1 ≠ [])
    (hle : st1.length ≤ 26) :
    (stage2Labels st1).length = st1.length ∧
    (∀ (i : Nat) (h : i < (stage2Labels st1).length),
      (stage2Labels st1).get ⟨i, h⟩ = Char.ofNat (65 + i)) ∧
    (stage2Labels st1).Nodup ∧
    (stage2LabelToModel st1).length = st1.length ∧
    (∀ (i : Nat) (h1 : i < (stage2LabelToModel st1).length) (h2 : i < st1.length),
      (stage2LabelToModel st1).get ⟨i, h1⟩ =
        ("Response ".toList ++ [Char.ofNat (65 + i)], (st1.get ⟨i, h2⟩).model)) := by
  refine ⟨by simp [stage2Labels], ?_, ?_, ?_, ?_⟩
  · intro i h
    simp [stage2Labels, List.get_eq_getElem, List.getElem_map, List.getElem_range]
  · have h26 : ((List.range 26).map (fun i => Char.ofNat (65 + i))).Nodup := by decide
    have heq : stage2Labels st1 =
        ((List.range 26).map (fun i => Char.ofNat (65 + i))).take st1.length := by
      rw [stage2Labels, ← List.map_take, List.take_range, inf_eq_left.mpr hle]
    rw [heq]
    exact (List.take_sublist _ _).nodup h26
  · simp [stage2LabelToModel, List.length_zip, stage2Labels]
  · intro i h1 h2
    simp [stage2LabelToModel, List.get_eq_getElem, List.getElem_map, List.getElem_zip,
      stage2Labels, List.getElem_range]

/-- Witness for `C7_anonymizer_labels` at a three-entry Stage-1 list,
together with the concrete labels and label map it produces. -/
theorem C7_anonymizer_labels_witness :
    stage1Three ≠ [] ∧ stage1Three.length ≤ 26 ∧
    stage2Labels stage1Three = "ABC".toList ∧
    stage2LabelToModel stage1Three =
      [("Response A".toList, "model-one".toList),
       ("Response B".toList, "model-two".toList),
       ("Response C".toList, "model-three".toList)] ∧
    ((stage2Labels stage1Three).length = stage1Three.length ∧
     (∀ (i : Nat) (h : i < (stage2Labels stage1Three).length),
       (stage2Labels stage1Three).get ⟨i, h⟩ = Char.ofNat (65 + i)) ∧
     (stage2Labels stage1Three).Nodup ∧
     (stage2LabelToModel stage1Three).length = stage1Three.length ∧
     (∀ (i : Nat) (h1 : i < (stage2LabelToModel stage1Three).length) (h2 : i < stage1Three.length),
       (stage2LabelToModel stage1Three).get ⟨i, h1⟩ =
         ("Response ".toList ++ [Char.ofNat (65 + i)], (stage1Three.get ⟨i, h2⟩).model))) :=
  ⟨by decide, by decide, by decide, by decide,
   C7_anonymizer_labels stage1Three (by decide) (by decide)⟩

/-- C9: the crisis detector returns `true` exactly when some keyword of
the fixed `CRISIS_KEYWORDS` list is a substring of the lower-cased query
text, and in particular it fires on `"I want to end my life"` and not on
`"I have a headache"`. -/
theorem C9_crisis_detector :
    (∀ user_query : Str, check_for_crisis user_query = true ↔
      ∃ keyword ∈ CRISIS_KEYWORDS, keyword <:+: user_query.map Char.toLower) ∧
    check_for_crisis "I want to end my life".toList = true ∧
    check_for_crisis "I have a headache".toList = false := by
  refine ⟨?_, by decide, by decide⟩
  intro user_query
  simp only [check_for_crisis, List.any_eq_true, containsSub_iff]

/-- C4: the aggregate output is sorted ascending by the (two-decimal)
average rank; entries of equal average keep the first-encounter order of
the unsorted per-model list (the filter by each key value is unchanged
by the sort); every model with a non-empty collected position list gets
exactly one entry whose average is `round(sum/len, 2)` (stored as 100
times its value) and whose count is `len`; and on the spec's example
both agents get average 1.5 (`150`) with the tie broken as
`agent1` before `agent2`. -/
theorem C4_aggregate_mean_and_sort :
    (∀ (st2 : List Stage2Entry) (ltm : List (Str × Str)),
      (calculate_aggregate_rankings st2 ltm).Pairwise
        (fun a b => a.average_rank_x100 ≤ b.average_rank_x100) ∧
      (∀ k : Nat,
        (calculate_aggregate_rankings st2 ltm).filter (fun e => e.average_rank_x100 == k) =
          (aggregateUnsorted (st2.map (fun r => parse_ranking_from_text r.ranking)) ltm).filter
            (fun e => e.average_rank_x100 == k)) ∧
      (∀ mp ∈ collectModelPositions
          (st2.map (fun r => parse_ranking_from_text r.ranking)) ltm,
        mp.2 ≠ [] →
          ∃ e ∈ calculate_aggregate_rankings st2 ltm,
            e.model = mp.1 ∧ e.average_rank_x100 = round_x100 mp.2.sum mp.2.length ∧
            e.rankings_count = mp.2.length)) ∧
    aggregateFromParsed
        [["Response A".toList, "Response B".toList],
         ["Response B".toList, "Response A".toList]]
        ltmPair =
      [{ model := "agent1".toList, average_rank_x100 := 150, rankings_count := 2 },
       { model := "agent2".toList, average_rank_x100 := 150, rankings_count := 2 }] := by
  refine ⟨?_, by decide⟩
  intro st2 ltm
  refine ⟨?_, ?_, ?_⟩
  · rw [calculate_aggregate_rankings, aggregateFromParsed]
    exact sortByRank_pairwise _
  · intro k
    rw [calculate_aggregate_rankings, aggregateFromParsed]
    exact filter_sortByRank _ k
  · intro mp hmp hne
    refine ⟨{ model := mp.1, average_rank_x100 := round_x100 mp.2.sum mp.2.length,
              rankings_count := mp.2.length }, ?_, rfl, rfl, rfl⟩
    rw [calculate_aggregate_rankings, aggregateFromParsed, mem_sortByRank,
      aggregateUnsorted, List.mem_filterMap]
    exact ⟨mp, hmp, by rw [if_neg (by simpa [List.isEmpty_iff] using hne)]⟩

/-- Witness for `C4_aggregate_mean_and_sort` on two concrete reviewers. -/
theorem C4_aggregate_mean_and_sort_witness :
    (("agent1".toList, ([1, 2] : List Nat)) ∈ collectModelPositions
      (st2Pair.map (fun r => parse_ranking_from_text r.ranking)) ltmPair) ∧
    (([1, 2] : List Nat) ≠ []) ∧
    (∃ e ∈ calculate_aggregate_rankings st2Pair ltmPair,
      e.model = ("agent1".toList, ([1, 2] : List Nat)).1 ∧
      e.average_rank_x100 =
        round_x100 ("agent1".toList, ([1, 2] : List Nat)).2.sum
          ("agent1".toList, ([1, 2] : List Nat)).2.length ∧
      e.rankings_count = ("agent1".toList, ([1, 2] : List Nat)).2.length) ∧
    calculate_aggregate_rankings st2Pair ltmPair =
      [{ model := "agent1".toList, average_rank_x100 := 150, rankings_count := 2 },
       { model := "agent2".toList, average_rank_x100 := 150, rankings_count := 2 }] :=
  ⟨by decide, by decide,
   (C4_aggregate_mean_and_sort.1 st2Pair ltmPair).2.2
     ("agent1".toList, ([1, 2] : List Nat)) (by decide) (by decide),
   by decide⟩

/-- C5: every entry of the aggregate output owes its presence to some
parsed label that the label map resolves to that entry's model — so a
parsed label absent from the map contributes no entry — and a model that
no reviewer's parsed, map-resolved labels ever name is entirely absent
from the output.  In the concrete conjunct, the unknown label
`Response Q` contributes nothing (though it still occupies position 1 of
its reviewer's list, so `Response A` is recorded at position 2 there)
and `agent2`, mapped but never ranked, is absent. -/
theorem C5_unknown_labels_absent_agents :
    (∀ (parsed_lists : List (List Str)) (ltm : List (Str × Str)),
      (∀ e ∈ aggregateFromParsed parsed_lists ltm,
        ∃ lst ∈ parsed_lists, ∃ label ∈ lst, ltm.lookup label = some e.model) ∧
      (∀ m : Str,
        (∀ lst ∈ parsed_lists, ∀ label ∈ lst, ltm.lookup label ≠ some m) →
        ∀ e ∈ aggregateFromParsed parsed_lists ltm, e.model ≠ m)) ∧
    aggregateFromParsed
        [["Response Q".toList, "Response A".toList], ["Response A".toList]]
        ltmPair =
      [{ model := "agent1".toList, average_rank_x100 := 150, rankings_count := 2 }] := by
  refine ⟨?_, by decide⟩
  intro parsed_lists ltm
  constructor
  · intro e he
    exact mem_aggregateFromParsed he
  · intro m hm e he hem
    obtain ⟨lst, hlst, label, hlabel, hlook⟩ := mem_aggregateFromParsed he
    exact hm lst hlst label hlabel (hem ▸ hlook)

/-- Witness for `C5_unknown_labels_absent_agents`: with only an unknown
label parsed, the output is empty and in particular never names
`agent1`. -/
theorem C5_unknown_labels_absent_agents_witness :
    (∀ lst ∈ plC5, ∀ label ∈ lst, ltmC5.lookup label ≠ some ("agent1".toList)) ∧
    (∀ e ∈ aggregateFromParsed plC5 ltmC5, e.model ≠ "agent1".toList) ∧
    aggregateFromParsed plC5 ltmC5 = [] :=
  ⟨by decide,
   (C5_unknown_labels_absent_agents.1 plC5 ltmC5).2 "agent1".toList (by decide),
   by decide⟩

/-- C6: when Stage 1 produces no results, the orchestrator returns empty
Stage-1 and Stage-2 lists, the non-empty sentinel error message in the
Stage-3 slot, and metadata carrying only the computed crisis flag; the
run's call log is exactly the Stage-1 fan-out (one call per council
model), so no Stage-2 or Stage-3 call is ever issued. -/
theorem C6_total_stage1_failure (user_query : Str) (o : QueryOracle)
    (h : (stage1_collect_responses user_query o).1 = []) :
    run_full_council user_query o =
      (([], [],
        { model := "error".toList,
          response := "All wellness professionals failed to respond. Please try again.".toList },
        { label_to_model := none, aggregate_rankings := none,
          is_crisis := check_for_crisis user_query }),
       COUNCIL_MODELS.map (fun model => (model, stage1Messages user_query model))) ∧
    ("All wellness professionals failed to respond. Please try again.".toList : Str) ≠ [] := by
  refine ⟨?_, by decide⟩
  simp only [run_full_council, h, List.isEmpty_nil, if_true]
  rfl

/-- Witness for `C6_total_stage1_failure` with the everywhere-failing
oracle. -/
theorem C6_total_stage1_failure_witness :
    (stage1_collect_responses "hello".toList (fun _ _ => none)).1 = [] ∧
    (run_full_council "hello".toList (fun _ _ => none) =
      (([], [],
        { model := "error".toList,
          response := "All wellness professionals failed to respond. Please try again.".toList },
        { label_to_model := none, aggregate_rankings := none,
          is_crisis := check_for_crisis "hello".toList }),
       COUNCIL_MODELS.map (fun model => (model, stage1Messages "hello".toList model))) ∧
     ("All wellness professionals failed to respond. Please try again.".toList : Str) ≠ []) :=
  ⟨rfl, C6_total_stage1_failure "hello".toList (fun _ _ => none) rfl⟩

/-- C8: when Stage 1 is non-empty and the single chairman call fails,
the run still returns: the Stage-3 slot holds the sentinel error result,
while the Stage-1 and Stage-2 lists (and the label map, aggregate and
crisis flag in the metadata) are exactly the collectors' outputs, and
the call log is Stage-1 calls, then Stage-2 calls, then the one chairman
call. -/
theorem C8_chairman_failure (user_query : Str) (o : QueryOracle)
    (h1 : (stage1_collect_responses user_query o).1 ≠ [])
    (h2 : o CHAIRMAN_MODEL
        (chairmanMessages user_query (stage1_collect_responses user_query o).1
          ((stage2_collect_rankings user_query
            (stage1_collect_responses user_query o).1 o).1.1)) = none) :
    run_full_council user_query o =
      (((stage1_collect_responses user_query o).1,
        (stage2_collect_rankings user_query (stage1_collect_responses user_query o).1 o).1.1,
        { model := CHAIRMAN_MODEL,
          response := "Error: Unable to generate final synthesis.".toList },
        { label_to_model :=
            some ((stage2_collect_rankings user_query
              (stage1_collect_responses user_query o).1 o).1.2),
          aggregate_rankings :=
            some (calculate_aggregate_rankings
              ((stage2_collect_rankings user_query
                (stage1_collect_responses user_query o).1 o).1.1)
              ((stage2_collect_rankings user_query
                (stage1_collect_responses user_query o).1 o).1.2)),
          is_crisis := check_for_crisis user_query }),
       (stage1_collect_responses user_query o).2
         ++ (stage2_collect_rankings user_query (stage1_collect_responses user_query o).1 o).2
         ++ [(CHAIRMAN_MODEL,
              chairmanMessages user_query (stage1_collect_responses user_query o).1
                ((stage2_collect_rankings user_query
                  (stage1_collect_responses user_query o).1 o).1.1))]) := by
  have hempty : (stage1_collect_responses user_query o).1.isEmpty = false :=
    List.isEmpty_eq_false.mpr h1
  simp only [run_full_council, stage3_synthesize_final, hempty, Bool.false_eq_true,
    if_false, h2]

/-- Witness for `C8_chairman_failure` under `oracleC8`. -/
theorem C8_chairman_failure_witness :
    (stage1_collect_responses "hi".toList oracleC8).1 ≠ [] ∧
    oracleC8 CHAIRMAN_MODEL
      (chairmanMessages "hi".toList (stage1_collect_responses "hi".toList oracleC8).1
        ((stage2_collect_rankings "hi".toList
          (stage1_collect_responses "hi".toList oracleC8).1 oracleC8).1.1)) = none ∧
    (run_full_council "hi".toList oracleC8).1.2.2.1 =
      { model := CHAIRMAN_MODEL,
        response := "Error: Unable to generate final synthesis.".toList } ∧
    (run_full_council "hi".toList oracleC8).1.1 =
      (stage1_collect_responses "hi".toList oracleC8).1 ∧
    (run_full_council "hi".toList oracleC8).1.2.1 =
      (stage2_collect_rankings "hi".toList
        (stage1_collect_responses "hi".toList oracleC8).1 oracleC8).1.1 := by
  have h1 : (stage1_collect_responses "hi".toList oracleC8).1 ≠ [] := by decide
  have h2 : oracleC8 CHAIRMAN_MODEL
      (chairmanMessages "hi".toList (stage1_collect_responses "hi".toList oracleC8).1
        ((stage2_collect_rankings "hi".toList
          (stage1_collect_responses "hi".toList oracleC8).1 oracleC8).1.1)) = none := rfl
  refine ⟨h1, h2, ?_, ?_, ?_⟩ <;>
    rw [C8_chairman_failure "hi".toList oracleC8 h1 h2]

/-- C10: each stored Stage-2 entry satisfies
`parsed_ranking = parse_ranking_from_text ranking`, and since
`calculate_aggregate_rankings` re-parses each entry's raw `ranking`
text, on such entries it aggregates exactly the stored `parsed_ranking`
label lists. -/
theorem C10_parsed_ranking_consistency :
    (∀ (user_query : Str) (st1 : List Stage1Entry) (o : QueryOracle),
      ∀ e ∈ (stage2_collect_rankings user_query st1 o).1.1,
        e.parsed_ranking = parse_ranking_from_text e.ranking) ∧
    (∀ (st2 : List Stage2Entry) (ltm : List (Str × Str)),
      (∀ e ∈ st2, e.parsed_ranking = parse_ranking_from_text e.ranking) →
      calculate_aggregate_rankings st2 ltm =
        aggregateFromParsed (st2.map (fun e => e.parsed_ranking)) ltm) := by
  constructor
  · intro user_query st1 o e he
    simp only [stage2_collect_rankings] at he
    rw [List.mem_filterMap] at he
    obtain ⟨model, _, hm⟩ := he
    cases ho : o model (stage2Messages user_query st1 model) with
    | none => rw [ho] at hm; simp at hm
    | some full_text =>
      rw [ho] at hm
      simp only [Option.map_some', Option.some.injEq] at hm
      rw [← hm]
  · intro st2 ltm hpr
    rw [calculate_aggregate_rankings]
    congr 1
    exact List.map_congr_left (fun e he => (hpr e he).symm)

/-- Witness for `C10_parsed_ranking_consistency`. -/
theorem C10_parsed_ranking_consistency_witness :
    (∀ e ∈ (stage2_collect_rankings "q".toList stage1Three oracleC10).1.1,
      e.parsed_ranking = parse_ranking_from_text e.ranking) ∧
    (∀ e ∈ st2C10, e.parsed_ranking = parse_ranking_from_text e.ranking) ∧
    calculate_aggregate_rankings st2C10 ltmPair =
      aggregateFromParsed (st2C10.map (fun e => e.parsed_ranking)) ltmPair := by
  have hpr : ∀ e ∈ st2C10, e.parsed_ranking = parse_ranking_from_text e.ranking := by
    intro e he
    simp only [st2C10, List.mem_singleton] at he
    subst he
    rfl
  exact ⟨C10_parsed_ranking_consistency.1 "q".toList stage1Three oracleC10, hpr,
    C10_parsed_ranking_consistency.2 st2C10 ltmPair hpr⟩

end Council
